import Mathlib

/-!
Verification of the extraction engine of the `yts` YouTube-search client
(`client.py`, `formatters.py`, `cli.py`).

The Python code is shallowly embedded: JSON documents become the inductive
`JValue`; Python mapping/sequence operations that can raise become functions
into `Except PyErr`; the textual front ends that belong to third-party
libraries (the `ytInitialData` regex plus `json.loads`, and BeautifulSoup
HTML parsing) are modelled by their outcome (`Page` carries the located JSON
parse result and the parsed tag tree).  Python floats are modelled as exact
decimal numbers (mantissa and power-of-ten scale); every concrete input used
in a theorem below is one on which binary64 evaluation and exact decimal
evaluation agree.
-/

namespace Yts

/-- A JSON value as produced by `json.loads`.  Number literals are modelled
as integers; floating-point JSON literals do not occur in any claim. -/
inductive JValue where
  | null : JValue
  | bool (b : Bool) : JValue
  | num (n : Int) : JValue
  | str (s : String) : JValue
  | arr (xs : List JValue) : JValue
  | obj (kvs : List (String × JValue)) : JValue

/-- The Python exception kinds that the embedded code can raise. -/
inductive PyErr where
  | attrError : PyErr
  | typeError : PyErr
  | keyError : PyErr
  | indexError : PyErr
deriving DecidableEq, Repr

/-- Python truthiness (`bool(v)`) for JSON-shaped values. -/
def pyTruthy : JValue → Bool
  | .null => false
  | .bool b => b
  | .num n => n ≠ 0
  | .str s => s ≠ ""
  | .arr xs => ¬ xs.isEmpty
  | .obj kvs => ¬ kvs.isEmpty

/-- Dictionary lookup used by the model; like a Python dict built from JSON,
the last occurrence of a duplicated key wins. -/
def jlookup (kvs : List (String × JValue)) (k : String) : Option JValue :=
  (kvs.reverse.find? (fun kv => kv.1 = k)).map (fun kv => kv.2)

/-- `v.get(k, d)`: defaulting lookup; on a non-dict receiver Python raises
`AttributeError` (no `get` attribute). -/
def dictGetD (v : JValue) (k : String) (d : JValue) : Except PyErr JValue :=
  match v with
  | .obj kvs => .ok ((jlookup kvs k).getD d)
  | _ => .error .attrError

/-- `v.get(k)`: lookup defaulting to `None`; `AttributeError` on non-dicts. -/
def dictGet (v : JValue) (k : String) : Except PyErr JValue :=
  dictGetD v k .null

/-- Substring test on character lists (Python `in` for strings). -/
def containsSeq (pat : List Char) : List Char → Bool
  | [] => pat.isEmpty
  | c :: rest => pat.isPrefixOf (c :: rest) || containsSeq pat rest

/-- `k in v` for a string `k`: key membership for dicts, substring test for
strings, element membership (Python `==`) for lists, `TypeError` otherwise. -/
def pyContains (k : String) (v : JValue) : Except PyErr Bool :=
  match v with
  | .obj kvs => .ok (kvs.any (fun kv => kv.1 = k))
  | .str s => .ok (containsSeq k.data s.data)
  | .arr xs =>
    .ok (xs.any (fun x => match x with | .str s => s = k | _ => false))
  | _ => .error .typeError

/-- `v[k]` for a string key `k`: dict indexing (`KeyError` when absent);
`TypeError` on sequences and scalars. -/
def pySubscript (v : JValue) (k : String) : Except PyErr JValue :=
  match v with
  | .obj kvs =>
    match jlookup kvs k with
    | some x => .ok x
    | none => .error .keyError
  | _ => .error .typeError

/-- `v[-1]`: last element of a list, last character of a string,
`KeyError` on a dict (−1 is not a key), `TypeError` on scalars. -/
def pyIndexLast (v : JValue) : Except PyErr JValue :=
  match v with
  | .arr xs =>
    match xs.getLast? with
    | some x => .ok x
    | none => .error .indexError
  | .str s =>
    match s.data.getLast? with
    | some c => .ok (.str (String.mk [c]))
    | none => .error .indexError
  | .obj _ => .error .keyError
  | _ => .error .typeError

/-- `v[0]`: first element of a list, first character of a string,
`KeyError` on a dict, `TypeError` on scalars. -/
def pyIndexFirst (v : JValue) : Except PyErr JValue :=
  match v with
  | .arr xs =>
    match xs.head? with
    | some x => .ok x
    | none => .error .indexError
  | .str s =>
    match s.data.head? with
    | some c => .ok (.str (String.mk [c]))
    | none => .error .indexError
  | .obj _ => .error .keyError
  | _ => .error .typeError

/-- `for x in v`: lists iterate their elements, strings their characters,
dicts their keys; scalars raise `TypeError`. -/
def pyIter (v : JValue) : Except PyErr (List JValue) :=
  match v with
  | .arr xs => .ok xs
  | .str s => .ok (s.data.map (fun c => .str (String.mk [c])))
  | .obj kvs => .ok (kvs.map (fun kv => .str kv.1))
  | _ => .error .typeError

/-- Characters stripped by `str.strip()`; non-ASCII whitespace is outside the
model's scope (no claim involves it). -/
def isPyWS (c : Char) : Bool :=
  c = ' ' ∨ c = '\t' ∨ c = '\n' ∨ c = '\r' ∨ c = '\x0b' ∨ c = '\x0c'

/-- `str.strip()` on a character list. -/
def stripWSList (cs : List Char) : List Char :=
  ((cs.dropWhile isPyWS).reverse.dropWhile isPyWS).reverse

/-- `str.strip()`. -/
def pyStrip (s : String) : String :=
  String.mk (stripWSList s.data)

/-- Fuel-driven worker for `str.replace(old, "")`; the fuel (initially the
list length, which bounds the number of steps) only makes the recursion
structural and never runs out. -/
def pyReplaceDelAux (o : Char) (os : List Char) : Nat → List Char → List Char
  | 0, _ => []
  | _ + 1, [] => []
  | n + 1, c :: rest =>
    if (o :: os).isPrefixOf (c :: rest) then
      pyReplaceDelAux o os n (rest.drop os.length)
    else
      c :: pyReplaceDelAux o os n rest

/-- `s.replace(old, "")` (deletion form of Python `str.replace`): delete
non-overlapping occurrences of `o :: os` left to right. -/
def pyReplaceDel (o : Char) (os : List Char) (cs : List Char) : List Char :=
  pyReplaceDelAux o os cs.length cs

/-- `s.replace(pat, "")` with a string pattern (identity for the empty
pattern, which does not occur in the code). -/
def pyDelete (pat : String) (cs : List Char) : List Char :=
  match pat.data with
  | [] => cs
  | p :: ps => pyReplaceDel p ps cs

/-- The normalisation chain of `_parse_view_count` (client.py:507):
`text.replace(',', '').replace(' views', '').replace(' subscribers', '')`. -/
def stripUnits (cs : List Char) : List Char :=
  pyDelete " subscribers" (pyDelete " views" (pyDelete "," cs))

/-- Python `str.split(sep)` for a one-character separator, keeping empty
pieces, on character lists. -/
def pySplitCharAux (sep : Char) : List Char → List Char → List (List Char)
  | [], acc => [acc.reverse]
  | c :: rest, acc =>
    if c = sep then acc.reverse :: pySplitCharAux sep rest []
    else pySplitCharAux sep rest (c :: acc)

/-- Python `str.split(sep)` for a one-character separator. -/
def pySplitChar (sep : Char) (cs : List Char) : List (List Char) :=
  pySplitCharAux sep cs []

/-- Decimal digit run value. -/
def digitsVal (cs : List Char) : Nat :=
  cs.foldl (fun a c => a * 10 + (c.toNat - 48)) 0

/-- Unsigned part of Python `int(str)`: a non-empty run of digits.
(Underscore digit separators are outside the model's scope.) -/
def intDigitsOnly (cs : List Char) : Option Nat :=
  if cs ≠ [] ∧ cs.all Char.isDigit then some (digitsVal cs) else none

/-- Python `int(str)`: optional surrounding whitespace, optional sign,
then digits only; `none` models `ValueError`. -/
def pyIntParseL (cs : List Char) : Option Int :=
  match stripWSList cs with
  | [] => none
  | c :: rest =>
    if c = '-' then (intDigitsOnly rest).map (fun n => -(n : Int))
    else if c = '+' then (intDigitsOnly rest).map (fun n => (n : Int))
    else (intDigitsOnly (c :: rest)).map (fun n => (n : Int))

/-- An exact decimal number `mant / 10 ^ scale`: the model of a Python float
produced by parsing a decimal literal. -/
abbrev DecNum := Int × Nat

/-- Unsigned part of Python `float(str)` for plain decimal literals
`digits[.digits]` or `.digits`; exponent forms, underscores, and the
`inf`/`nan` words are outside the model's scope (no claim reaches them). -/
def pyFloatCore (cs : List Char) : Option DecNum :=
  let ip := cs.takeWhile Char.isDigit
  let r1 := cs.drop ip.length
  match r1 with
  | '.' :: r2 =>
    let fp := r2.takeWhile Char.isDigit
    let r3 := r2.drop fp.length
    if r3 = [] ∧ (ip ≠ [] ∨ fp ≠ []) then
      some (((digitsVal ip : Int) * (10 : Int) ^ fp.length + (digitsVal fp : Int), fp.length))
    else none
  | [] => if ip ≠ [] then some (((digitsVal ip : Int), 0)) else none
  | _ => none

/-- Python `float(str)` (decimal-literal fragment), as an exact decimal. -/
def pyFloatParse (cs : List Char) : Option DecNum :=
  match stripWSList cs with
  | [] => none
  | c :: rest =>
    if c = '-' then (pyFloatCore rest).map (fun p => (-p.1, p.2))
    else if c = '+' then pyFloatCore rest
    else pyFloatCore (c :: rest)

/-- `int(number * multiplier)` for a decimal `number` and integer
`multiplier`: Python `int()` truncates toward zero, which on the exact
decimal `mant / 10 ^ scale` is truncating integer division. -/
def truncScaled (p : DecNum) (mult : Int) : Int :=
  (p.1 * mult).tdiv ((10 : Int) ^ p.2)

/-- The rational value of a decimal number (used only in statements). -/
def decToRat (p : DecNum) : Rat :=
  (p.1 : Rat) / (10 : Rat) ^ p.2

/-- The body of one iteration of `_parse_view_count`'s suffix loop
(client.py:512-518) together with its fall-through: when the suffix matched,
`float(text[:-1])` is tried and on success `int(number * multiplier)` is
returned; a `ValueError` falls through the loop (no other one-character
suffix can also match) to the plain `int(text)` attempt. -/
def viewSuffix (t : List Char) (mult : Int) : Option Int :=
  match pyFloatParse t.dropLast with
  | some p => some (truncScaled p mult)
  | none => pyIntParseL t

/-- `_parse_view_count` (client.py:501-524): strip separators and unit words,
try a `K`/`M`/`B` suffix with a float mantissa, else parse a plain integer;
`None` on failure.  A failed float parse falls through to the plain-integer
attempt, exactly as the source's loop does (no other suffix can match). -/
def parse_view_count (text : String) : Option Int :=
  if text = "" then none
  else
    let t := stripUnits text.data
    let up := t.map Char.toUpper
    if up.getLast? = some 'K' then viewSuffix t 1000
    else if up.getLast? = some 'M' then viewSuffix t 1000000
    else if up.getLast? = some 'B' then viewSuffix t 1000000000
    else pyIntParseL t

/-- `_parse_video_count` (client.py:526-539): first run of digits in the
text (`re.search(r'(\d+)', text)`), else `None`. -/
def parse_video_count (text : String) : Option Int :=
  if text = "" then none
  else
    let rest := text.data.dropWhile (fun c => ¬ c.isDigit)
    match rest with
    | [] => none
    | _ => some ((digitsVal (rest.takeWhile Char.isDigit) : Int))

/-- `_parse_duration_to_seconds` (client.py:541-555): split on `:`;
two parts are `MM:SS`, three are `HH:MM:SS`; anything else, or a part that
`int` rejects, yields `None`. -/
def parse_duration_to_seconds (duration_text : String) : Option Int :=
  if duration_text = "" then none
  else
    match pySplitChar ':' duration_text.data with
    | [m, s] =>
      match pyIntParseL m, pyIntParseL s with
      | some a, some b => some (a * 60 + b)
      | _, _ => none
    | [h, m, s] =>
      match pyIntParseL h, pyIntParseL m, pyIntParseL s with
      | some a, some b, some c => some (a * 3600 + b * 60 + c)
      | _, _, _ => none
    | _ => none

/-- `VideoResult` (models.py): fields that the Python code leaves untyped
hold a `JValue`; `None` is `JValue.null`. -/
structure VideoResult where
  title : JValue
  url : String
  channel_title : JValue
  view_count : Option Int := none
  duration : JValue := .null
  duration_seconds : Option Int := none
  thumbnail_url : JValue := .null
  upload_date : JValue := .null
  description : JValue := .null

/-- `ChannelResult` (models.py). -/
structure ChannelResult where
  name : JValue
  url : String
  subscriber_count : Option Int := none
  video_count : Option Int := none
  description : JValue := .null
  avatar_url : JValue := .null

/-- `PlaylistResult` (models.py). -/
structure PlaylistResult where
  title : JValue
  url : String
  channel_title : JValue
  video_count : Option Int := none
  thumbnail_url : JValue := .null
  description : JValue := .null

/-- One typed search result (the `Union[VideoResult, ChannelResult,
PlaylistResult]` of client.py). -/
inductive SearchItem where
  | video (v : VideoResult)
  | channel (c : ChannelResult)
  | playlist (p : PlaylistResult)

/-- The result's canonical URL field. -/
def itemUrl : SearchItem → String
  | .video v => v.url
  | .channel c => c.url
  | .playlist p => p.url

/-- Worker for the `runs` branch of `_extract_text` (client.py:498):
`"".join(run.get("text", "") for run in runs)`.  A non-dict run raises
`AttributeError` at `.get`; a non-string piece makes `join` raise
`TypeError`. -/
def joinRuns : List JValue → Except PyErr String
  | [] => .ok ""
  | run :: rest =>
    match run with
    | .obj kvs =>
      match (jlookup kvs "text").getD (.str "") with
      | .str t =>
        match joinRuns rest with
        | .ok r => .ok (t ++ r)
        | .error e => .error e
      | _ => .error .typeError
    | _ => .error .attrError

/-- `_extract_text` (client.py:490-499): plain strings pass through, a
`simpleText` wrapper yields its (arbitrary) value, a `runs` wrapper joins the
run texts, anything else yields the empty string. -/
def extract_text (text_obj : JValue) : Except PyErr JValue :=
  match text_obj with
  | .str s => .ok (.str s)
  | .obj kvs =>
    if kvs.any (fun kv => kv.1 = "simpleText") then
      match jlookup kvs "simpleText" with
      | some v => .ok v
      | none => .error .keyError
    else if kvs.any (fun kv => kv.1 = "runs") then
      match jlookup kvs "runs" with
      | some rv =>
        match pyIter rv with
        | .ok runs =>
          match joinRuns runs with
          | .ok s => .ok (.str s)
          | .error e => .error e
        | .error e => .error e
      | none => .error .keyError
    else .ok (.str "")
  | _ => .ok (.str "")

/-- `_parse_view_count` at its call sites, where the argument is whatever
`_extract_text` produced: a falsy value returns `None` at the `if not text`
guard; a truthy non-string raises `AttributeError` at `.replace`. -/
def parse_view_count_J (v : JValue) : Except PyErr (Option Int) :=
  if pyTruthy v then
    match v with
    | .str s => .ok (parse_view_count s)
    | _ => .error .attrError
  else .ok none

/-- `_parse_video_count` at its call sites: a falsy value returns `None`;
`re.search` on a truthy non-string raises `TypeError`. -/
def parse_video_count_J (v : JValue) : Except PyErr (Option Int) :=
  if pyTruthy v then
    match v with
    | .str s => .ok (parse_video_count s)
    | _ => .error .typeError
  else .ok none

/-- `_parse_duration_to_seconds` at its call sites: a falsy value returns
`None`; a truthy non-string raises `AttributeError` at `.split`. -/
def parse_duration_J (v : JValue) : Except PyErr (Option Int) :=
  if pyTruthy v then
    match v with
    | .str s => .ok (parse_duration_to_seconds s)
    | _ => .error .attrError
  else .ok none

/-- The thumbnail block shared by the video and channel branches
(client.py:263-268, 289-294): `owner.get("thumbnail", {})`, then the last
entry's `url` when a truthy `thumbnails` list is present, else `None`. -/
def lastThumbUrl (owner : JValue) : Except PyErr JValue :=
  match dictGetD owner "thumbnail" (.obj []) with
  | .error e => .error e
  | .ok thumbnail_data =>
    match pyContains "thumbnails" thumbnail_data with
    | .error e => .error e
    | .ok true =>
      match pySubscript thumbnail_data "thumbnails" with
      | .error e => .error e
      | .ok thumbnails =>
        if pyTruthy thumbnails then
          match pyIndexLast thumbnails with
          | .error e => .error e
          | .ok lastTh => dictGet lastTh "url"
        else .ok .null
    | .ok false => .ok .null

/-- The thumbnail block of the playlist branch (client.py:313-318):
`playlist.get("thumbnails", [])`, then `thumbnails[0]["thumbnails"][-1]`'s
`url` when present and truthy, else `None`. -/
def playlistThumbUrl (playlist : JValue) : Except PyErr JValue :=
  match dictGetD playlist "thumbnails" (.arr []) with
  | .error e => .error e
  | .ok thumbnails =>
    if pyTruthy thumbnails then
      match pyIndexFirst thumbnails with
      | .error e => .error e
      | .ok th0 =>
        match pyContains "thumbnails" th0 with
        | .error e => .error e
        | .ok true =>
          match pySubscript th0 "thumbnails" with
          | .error e => .error e
          | .ok thumb_data =>
            if pyTruthy thumb_data then
              match pyIndexLast thumb_data with
              | .error e => .error e
              | .ok lastT => dictGet lastT "url"
            else .ok .null
        | .ok false => .ok .null
    else .ok .null

mutual
/-- Python `repr` of a JSON-shaped value (string escaping is not modelled;
no claim depends on it). -/
def pyRepr : JValue → String
  | .null => "None"
  | .bool true => "True"
  | .bool false => "False"
  | .num n => toString n
  | .str s => "\x27" ++ s ++ "\x27"
  | .arr xs => "[" ++ pyReprList xs ++ "]"
  | .obj kvs => "\x7b" ++ pyReprObj kvs ++ "\x7d"
def pyReprList : List JValue → String
  | [] => ""
  | [x] => pyRepr x
  | x :: y :: rest => pyRepr x ++ ", " ++ pyReprList (y :: rest)
def pyReprObj : List (String × JValue) → String
  | [] => ""
  | [kv] => "\x27" ++ kv.1 ++ "\x27: " ++ pyRepr kv.2
  | kv :: y :: rest => "\x27" ++ kv.1 ++ "\x27: " ++ pyRepr kv.2 ++ ", " ++ pyReprObj (y :: rest)
end

/-- Python `str()`, as used by f-string interpolation. -/
def pyStr : JValue → String
  | .str s => s
  | v => pyRepr v

/-- The constant watch-page URL head of the video branch (client.py:272). -/
def watchUrlBase : String := "https://www.youtube.com/watch?v="

/-- The constant channel URL head of the channel branch (client.py:298). -/
def channelUrlBase : String := "https://www.youtube.com/channel/"

/-- The constant playlist URL head of the playlist branch (client.py:322). -/
def playlistUrlBase : String := "https://www.youtube.com/playlist?list="

/-- The video branch of `_parse_json_item` (client.py:253-278), applied to
`item["videoRenderer"]`; field reads follow the source's order, and
`duration_seconds` is parsed at record construction, after the thumbnail
block, as in the source's constructor call. -/
def parse_video_item (video : JValue) : Except PyErr VideoResult := do
  let video_id ← dictGetD video "videoId" (.str "")
  let title ← extract_text (← dictGetD video "title" (.obj []))
  let channel_title ← extract_text (← dictGetD video "ownerText" (.obj []))
  let duration_text ← extract_text (← dictGetD video "lengthText" (.obj []))
  let view_count ← parse_view_count_J (← extract_text (← dictGetD video "viewCountText" (.obj [])))
  let thumbnail_url ← lastThumbUrl video
  let duration_seconds ← parse_duration_J duration_text
  pure {
    title := title
    url := watchUrlBase ++ pyStr video_id
    channel_title := channel_title
    duration := duration_text
    duration_seconds := duration_seconds
    view_count := view_count
    thumbnail_url := thumbnail_url
  }

/-- The channel branch of `_parse_json_item` (client.py:281-302), applied to
`item["channelRenderer"]`. -/
def parse_channel_item (channel : JValue) : Except PyErr ChannelResult := do
  let channel_id ← dictGetD channel "channelId" (.str "")
  let name ← extract_text (← dictGetD channel "title" (.obj []))
  let description ← extract_text (← dictGetD channel "descriptionSnippet" (.obj []))
  let subscriber_count ← parse_view_count_J (← extract_text (← dictGetD channel "subscriberCountText" (.obj [])))
  let avatar_url ← lastThumbUrl channel
  pure {
    name := name
    url := channelUrlBase ++ pyStr channel_id
    description := description
    subscriber_count := subscriber_count
    avatar_url := avatar_url
  }

/-- The playlist branch of `_parse_json_item` (client.py:305-326), applied
to `item["playlistRenderer"]`. -/
def parse_playlist_item (playlist : JValue) : Except PyErr PlaylistResult := do
  let playlist_id ← dictGetD playlist "playlistId" (.str "")
  let title ← extract_text (← dictGetD playlist "title" (.obj []))
  let channel_title ← extract_text (← dictGetD playlist "ownerText" (.obj []))
  let video_count ← parse_video_count_J (← extract_text (← dictGetD playlist "videoCountText" (.obj [])))
  let thumbnail_url ← playlistThumbUrl playlist
  pure {
    title := title
    url := playlistUrlBase ++ pyStr playlist_id
    channel_title := channel_title
    video_count := video_count
    thumbnail_url := thumbnail_url
  }

/-- `_parse_json_item` (client.py:249-328): dispatch on the marker key and
the requested kind; `None` when no branch fires. -/
def parse_json_item (item : JValue) (result_type : String) : Except PyErr (Option SearchItem) := do
  let hasVideo ← pyContains "videoRenderer" item
  if hasVideo ∧ (result_type = "video" ∨ result_type = "all") then
    let video ← pySubscript item "videoRenderer"
    let r ← parse_video_item video
    pure (some (.video r))
  else
    let hasChannel ← pyContains "channelRenderer" item
    if hasChannel ∧ (result_type = "channel" ∨ result_type = "all") then
      let channel ← pySubscript item "channelRenderer"
      let r ← parse_channel_item channel
      pure (some (.channel r))
    else
      let hasPlaylist ← pyContains "playlistRenderer" item
      if hasPlaylist ∧ (result_type = "playlist" ∨ result_type = "all") then
        let playlist ← pySubscript item "playlistRenderer"
        let r ← parse_playlist_item playlist
        pure (some (.playlist r))
      else
        pure none

/-- The inner item loop of `_extract_json_results` (client.py:238-241); an
escaping exception carries the results accumulated so far, because the
enclosing `try` returns them when it catches the exception. -/
def navItems (result_type : String) (acc : List SearchItem) :
    List JValue → Except (PyErr × List SearchItem) (List SearchItem)
  | [] => .ok acc
  | item :: rest =>
    match parse_json_item item result_type with
    | .error e => .error (e, acc)
    | .ok none => navItems result_type acc rest
    | .ok (some r) => navItems result_type (acc ++ [r]) rest

/-- The section loop of `_extract_json_results` (client.py:235-241). -/
def navSections (result_type : String) (acc : List SearchItem) :
    List JValue → Except (PyErr × List SearchItem) (List SearchItem)
  | [] => .ok acc
  | s :: rest =>
    match pyContains "itemSectionRenderer" s with
    | .error e => .error (e, acc)
    | .ok false => navSections result_type acc rest
    | .ok true =>
      match (do
        let isr ← pySubscript s "itemSectionRenderer"
        let contents ← dictGetD isr "contents" (.arr [])
        pyIter contents) with
      | .error e => .error (e, acc)
      | .ok items =>
        match navItems result_type acc items with
        | .error p => .error p
        | .ok acc2 => navSections result_type acc2 rest

/-- The fixed navigation path of `_extract_json_results` (client.py:230-241)
from the parsed document down to the section list, then the loops. -/
def navigate (data : JValue) (result_type : String) :
    Except (PyErr × List SearchItem) (List SearchItem) :=
  match (do
    let contents ← dictGetD data "contents" (.obj [])
    let sr ← dictGetD contents "twoColumnSearchResultsRenderer" (.obj [])
    let pc ← dictGetD sr "primaryContents" (.obj [])
    let sl ← dictGetD pc "sectionListRenderer" (.obj [])
    let sectionsV ← dictGetD sl "contents" (.arr [])
    pyIter sectionsV) with
  | .error e => .error (e, [])
  | .ok sections => navSections result_type [] sections

/-- The outcome of locating and JSON-parsing the `ytInitialData` literal:
this is the model of `re.search(r'var ytInitialData = (\x7b.+?\x7d);', ...)`
followed by `json.loads` — both third-party calls. -/
inductive JsonParse where
  | malformed
  | parsed (v : JValue)

/-- `_extract_json_results` (client.py:217-247) over the located JSON blob:
no match or a `json.JSONDecodeError` yields `[]`; the `try` block catches
only `json.JSONDecodeError` and `KeyError` (client.py:243) and then returns
the results accumulated so far; any other exception escapes. -/
def extract_json_results_data (jsonData : Option JsonParse) (result_type : String) :
    Except PyErr (List SearchItem) :=
  match jsonData with
  | none => .ok []
  | some .malformed => .ok []
  | some (.parsed data) =>
    match navigate data result_type with
    | .ok results => .ok results
    | .error (.keyError, results) => .ok results
    | .error (e, _) => .error e

/-- A node of the parsed HTML tag tree (the model of a BeautifulSoup
element). -/
inductive HNode where
  | elem (tag : String) (attrs : List (String × String)) (children : List HNode)
  | text (s : String)

/-- `tag.get(name)`: attribute lookup (all attributes reached by the code
are string-valued). -/
def attrGet (e : HNode) (name : String) : Option String :=
  match e with
  | .elem _ attrs _ => (attrs.find? (fun a => a.1 = name)).map (fun a => a.2)
  | .text _ => none

/-- `tag.get(name, d)`. -/
def attrGetD (e : HNode) (name : String) (d : String) : String :=
  (attrGet e name).getD d

mutual
/-- The stripped text fragments below a node (`get_text(strip=True)`
strips each string and joins them with the empty separator). -/
def nodeStrings : HNode → List String
  | .text s => [pyStrip s]
  | .elem _ _ cs => nodeStringsList cs
def nodeStringsList : List HNode → List String
  | [] => []
  | n :: rest => nodeStrings n ++ nodeStringsList rest
end

/-- `tag.get_text(strip=True)`. -/
def getTextStrip (e : HNode) : String :=
  String.join (nodeStrings e)

/-- Whitespace splitting (for the `class` attribute's token list). -/
def wsSplitAux : List Char → List Char → List (List Char)
  | [], acc => if acc.isEmpty then [] else [acc.reverse]
  | c :: rest, acc =>
    if isPyWS c then
      if acc.isEmpty then wsSplitAux rest [] else acc.reverse :: wsSplitAux rest []
    else wsSplitAux rest (c :: acc)

/-- A simple CSS selector as used by the fallback extractor: tag name,
tag with attribute present, tag with attribute-substring (`[attr*=v]`),
class, or id. -/
inductive SSel where
  | tagName (t : String)
  | tagAttr (t a : String)
  | tagAttrSub (t a sub : String)
  | cls (c : String)
  | idIs (i : String)

/-- A selector: simple, or a descendant pair `outer inner`.  (These are the
only selector forms appearing in client.py.) -/
inductive Sel where
  | simple (s : SSel)
  | within (outer inner : SSel)

/-- Element tag name (text nodes have none). -/
def tagOf : HNode → String
  | .elem t _ _ => t
  | .text _ => ""

/-- Class-attribute membership of a class token. -/
def hasClass (e : HNode) (c : String) : Bool :=
  match attrGet e "class" with
  | some v => (wsSplitAux v.data []).any (fun t => t = c.data)
  | none => false

/-- Whether an element matches a simple selector. -/
def matchesSimple (s : SSel) (e : HNode) : Bool :=
  match s with
  | .tagName t => tagOf e = t
  | .tagAttr t a => decide (tagOf e = t) && (attrGet e a).isSome
  | .tagAttrSub t a sub =>
    decide (tagOf e = t) && (match attrGet e a with
                             | some v => containsSeq sub.data v.data
                             | none => false)
  | .cls c => hasClass e c
  | .idIs i => attrGet e "id" = some i

/-- Whether an element (with its chain of ancestors) matches a selector. -/
def selMatches (sel : Sel) (e : HNode) (anc : List HNode) : Bool :=
  match sel with
  | .simple s => matchesSimple s e
  | .within outer inner =>
    matchesSimple inner e && anc.any (fun a => matchesSimple outer a)

mutual
/-- Document-order selection over a node list (soupsieve `select`):
collect every element matching any selector of the comma group. -/
def selectList (group : List Sel) (anc : List HNode) : List HNode → List HNode
  | [] => []
  | n :: rest => selectNode group anc n ++ selectList group anc rest
/-- Selection over a single node and its subtree. -/
def selectNode (group : List Sel) (anc : List HNode) : HNode → List HNode
  | .text _ => []
  | .elem t a cs =>
    (if group.any (fun sel => selMatches sel (.elem t a cs) anc) then
      [HNode.elem t a cs] else [])
      ++ selectList group (HNode.elem t a cs :: anc) cs
end

/-- `soup.select(...)` over the whole document. -/
def selectTop (group : List Sel) (roots : List HNode) : List HNode :=
  selectList group [] roots

/-- `container.select(...)`: matches among the container's descendants; the
container itself counts as a possible ancestor for descendant selectors.
(Ancestors of the container outside its subtree are not modelled; no claim
depends on them.) -/
def selectIn (group : List Sel) (c : HNode) : List HNode :=
  match c with
  | .elem t a cs => selectList group [HNode.elem t a cs] cs
  | .text _ => []

/-- `container.select_one(...)`: first match in document order. -/
def selectOne (group : List Sel) (c : HNode) : Option HNode :=
  (selectIn group c).head?

/-- `re.search(marker + r'([^&]+)', s)`: find the first position where the
marker is followed by at least one non-`&` character, and capture the
maximal such run (client.py:370, 457). -/
def reCapture (marker : List Char) : List Char → Option (List Char)
  | [] => none
  | c :: rest =>
    if marker.isPrefixOf (c :: rest) then
      let tail := (c :: rest).drop marker.length
      let cap := tail.takeWhile (fun x => x ≠ '&')
      if cap.isEmpty then reCapture marker rest else some cap
    else reCapture marker rest

/-- `p` is a prefix of `s` (Python `str.startswith`). -/
def strStarts (p s : String) : Bool :=
  p.data.isPrefixOf s.data

/-- Modelled from `urllib.parse.urljoin` with the fixed base
`https://www.youtube.com` (client.py:419), restricted to the href shapes the
channel link selector admits: absolute URLs pass through, protocol-relative
and root-relative ones are attached to the base, other relative ones resolve
against the base's empty path. -/
def pyUrljoin (base href : String) : String :=
  if strStarts "http://" href ∨ strStarts "https://" href then href
  else if strStarts "//" href then "https:" ++ href
  else if strStarts "/" href then base ++ href
  else if href = "" then base
  else base ++ "/" ++ href

/-- Truthiness of an optional string (`None` and `""` are falsy). -/
def optTruthy : Option String → Bool
  | some s => s ≠ ""
  | none => false

/-- Python `a or b` on optional strings. -/
def pyOrOpt (a b : Option String) : Option String :=
  if optTruthy a then a else b

/-- `img_elem.get('src') or img_elem.get('data-src') if img_elem else None`
(client.py:390-391, 430-431, 472-473). -/
def imgSrcUrl (c : HNode) : Option String :=
  match selectOne [Sel.simple (.tagName "img")] c with
  | some img => pyOrOpt (attrGet img "src") (attrGet img "data-src")
  | none => none

/-- `if thumbnail_url and thumbnail_url.startswith('//'): 'https:' + ...`
(client.py:392-393 and twins). -/
def fixProtoRel : Option String → Option String
  | some s => if s ≠ "" ∧ strStarts "//" s then some ("https:" ++ s) else some s
  | none => none

/-- String-valued optional field as stored on a record. -/
def joptStr : Option String → JValue
  | some s => .str s
  | none => .null

/-- `'div[data-context-item-id], .ytd-video-renderer'` (client.py:337). -/
def videoContainersSel : List Sel :=
  [.simple (.tagAttr "div" "data-context-item-id"), .simple (.cls "ytd-video-renderer")]

/-- `'.ytd-channel-renderer'` (client.py:345). -/
def channelContainersSel : List Sel := [.simple (.cls "ytd-channel-renderer")]

/-- `'.ytd-playlist-renderer'` (client.py:353). -/
def playlistContainersSel : List Sel := [.simple (.cls "ytd-playlist-renderer")]

/-- `'a[href*="watch?v="]'` (client.py:367). -/
def watchLinkSel : List Sel := [.simple (.tagAttrSub "a" "href" "watch?v=")]

/-- `'h3 a, .video-title, #video-title'` (client.py:378). -/
def videoTitleSel : List Sel :=
  [.within (.tagName "h3") (.tagName "a"), .simple (.cls "video-title"), .simple (.idIs "video-title")]

/-- `'.ytd-channel-name a, .channel-name'` (client.py:382). -/
def videoChannelSel : List Sel :=
  [.within (.cls "ytd-channel-name") (.tagName "a"), .simple (.cls "channel-name")]

/-- `'.ytd-thumbnail-overlay-time-status-renderer, .duration'` (client.py:386). -/
def durationSel : List Sel :=
  [.simple (.cls "ytd-thumbnail-overlay-time-status-renderer"), .simple (.cls "duration")]

/-- `'a[href*="/channel/"], a[href*="/c/"], a[href*="/@"]'` (client.py:414). -/
def channelLinkSel : List Sel :=
  [.simple (.tagAttrSub "a" "href" "/channel/"), .simple (.tagAttrSub "a" "href" "/c/"),
   .simple (.tagAttrSub "a" "href" "/@")]

/-- `'.ytd-channel-name, .channel-title, h3 a'` (client.py:422). -/
def channelNameSel : List Sel :=
  [.simple (.cls "ytd-channel-name"), .simple (.cls "channel-title"),
   .within (.tagName "h3") (.tagName "a")]

/-- `'.channel-description, .description-snippet'` (client.py:426). -/
def channelDescSel : List Sel :=
  [.simple (.cls "channel-description"), .simple (.cls "description-snippet")]

/-- `'a[href*="list="]'` (client.py:452). -/
def playlistLinkSel : List Sel := [.simple (.tagAttrSub "a" "href" "list=")]

/-- `'.playlist-title, h3 a, #video-title'` (client.py:464). -/
def playlistTitleSel : List Sel :=
  [.simple (.cls "playlist-title"), .within (.tagName "h3") (.tagName "a"),
   .simple (.idIs "video-title")]

/-- `'.ytd-channel-name a, .playlist-owner'` (client.py:468). -/
def playlistChannelSel : List Sel :=
  [.within (.cls "ytd-channel-name") (.tagName "a"), .simple (.cls "playlist-owner")]

/-- The identity-id step of `_parse_video_container` (client.py:364-372):
the `data-context-item-id` attribute if truthy, else the id captured from
the first watch link's href, else whatever falsy value the attribute read
produced. -/
def videoContainerId (container : HNode) : Option String :=
  let vid1 := attrGet container "data-context-item-id"
  if optTruthy vid1 then vid1
  else
    match selectOne watchLinkSel container with
    | some link =>
      match reCapture "watch?v=".data (attrGetD link "href" "").data with
      | some cap => some (String.mk cap)
      | none => vid1
    | none => vid1

/-- The `elem.get('title', '') or elem.get_text(strip=True) if elem else ""`
idiom shared by the video and playlist title extraction (client.py:378-379,
464-465). -/
def containerTitle (sels : List Sel) (container : HNode) : String :=
  match selectOne sels container with
  | some te =>
    let ta := attrGetD te "title" ""
    if ta ≠ "" then ta else getTextStrip te
  | none => ""

/-- The `elem.get_text(strip=True) if elem else ""` idiom of the secondary
text fields (client.py:382-387, 422-427, 468-469). -/
def containerText (sels : List Sel) (container : HNode) : String :=
  match selectOne sels container with
  | some e => getTextStrip e
  | none => ""

/-- `_parse_video_container` (client.py:361-408).  Every operation in the
body is total in the model, so the enclosing `except Exception` clause has
nothing to catch. -/
def parse_video_container (container : HNode) : Option VideoResult :=
  if optTruthy (videoContainerId container) then
    let video_id := (videoContainerId container).getD ""
    let title := containerTitle videoTitleSel container
    let channel_title := containerText videoChannelSel container
    let duration := containerText durationSel container
    let thumbnail_url := fixProtoRel (imgSrcUrl container)
    if title ≠ "" then
      some {
        title := .str title
        url := watchUrlBase ++ video_id
        channel_title := .str channel_title
        duration := .str duration
        duration_seconds := parse_duration_to_seconds duration
        thumbnail_url := joptStr thumbnail_url
      }
    else none
  else none

/-- `_parse_channel_container` (client.py:410-446). -/
def parse_channel_container (container : HNode) : Option ChannelResult :=
  match selectOne channelLinkSel container with
  | none => none
  | some link =>
    let href := attrGetD link "href" ""
    let channel_url := pyUrljoin "https://www.youtube.com" href
    let name := containerText channelNameSel container
    let description := containerText channelDescSel container
    let avatar_url := fixProtoRel (imgSrcUrl container)
    if name ≠ "" then
      some {
        name := .str name
        url := channel_url
        description := .str description
        avatar_url := joptStr avatar_url
      }
    else none

/-- `_parse_playlist_container` (client.py:448-488). -/
def parse_playlist_container (container : HNode) : Option PlaylistResult :=
  match selectOne playlistLinkSel container with
  | none => none
  | some link =>
    let href := attrGetD link "href" ""
    match reCapture "list=".data href.data with
    | none => none
    | some cap =>
      let playlist_id := String.mk cap
      let title := containerTitle playlistTitleSel container
      let channel_title := containerText playlistChannelSel container
      let thumbnail_url := fixProtoRel (imgSrcUrl container)
      if title ≠ "" then
        some {
          title := .str title
          url := playlistUrlBase ++ playlist_id
          channel_title := .str channel_title
          thumbnail_url := joptStr thumbnail_url
        }
      else none

/-- `_parse_html_results` (client.py:330-359): per requested kind, select
the candidate containers and keep the containers that parse to a record, in
document order. -/
def parse_html_results (soup : List HNode) (result_type : String) : List SearchItem :=
  (if result_type = "video" ∨ result_type = "all" then
    ((selectTop videoContainersSel soup).filterMap parse_video_container).map SearchItem.video
   else []) ++
  (if result_type = "channel" ∨ result_type = "all" then
    ((selectTop channelContainersSel soup).filterMap parse_channel_container).map SearchItem.channel
   else []) ++
  (if result_type = "playlist" ∨ result_type = "all" then
    ((selectTop playlistContainersSel soup).filterMap parse_playlist_container).map SearchItem.playlist
   else [])

/-- A fetched page, modelled by the outcomes of the two third-party parsing
front ends applied to its text: the located-and-parsed `ytInitialData` blob
(if the regex matched) and the BeautifulSoup tag tree. -/
structure Page where
  ytInitialData : Option JsonParse
  soup : List HNode

/-- `_extract_json_results` (client.py:217-247) on a page. -/
def extract_json_results (page : Page) (result_type : String) :
    Except PyErr (List SearchItem) :=
  extract_json_results_data page.ytInitialData result_type

/-- `_parse_search_results` (client.py:201-215): structured extraction
first; the fallback tag extraction runs only when the accumulated results
are empty.  An exception escaping the structured extractor propagates. -/
def parse_search_results (page : Page) (result_type : String) :
    Except PyErr (List SearchItem) :=
  match extract_json_results page result_type with
  | .error e => .error e
  | .ok json_results =>
    if json_results.isEmpty then .ok (parse_html_results page.soup result_type)
    else .ok json_results

/-- Python list slicing `xs[:k]`, including the negative-index form. -/
def pySliceTo (k : Int) (xs : List α) : List α :=
  if 0 ≤ k then xs.take k.toNat else xs.take ((xs.length : Int) + k).toNat

/-- Observable steps of one search call. -/
inductive SearchEvent where
  | fetch
deriving DecidableEq, Repr

/-- The search-level errors of `_async_search`: the empty-query rejection
(client.py:112) and the wrapper that converts any other escaping exception
into a `SearchError` (client.py:128-131). -/
inductive SearchErr where
  | emptyQuery
  | searchFailed (e : PyErr)
deriving DecidableEq, Repr

/-- `_async_search` (client.py:104-131) from the validation step onward,
with the network fetch modelled as an event producing the given `page`
(URL construction and transport failures are outside the claims).  Note
`max_results or self.max_results` (client.py:114): both `None` and `0` are
falsy, so both select the client default. -/
def async_search (query : String) (max_results : Option Int) (clientDefault : Int)
    (page : Page) (result_type : String) :
    List SearchEvent × Except SearchErr (List SearchItem) :=
  if pyStrip query = "" then ([], .error .emptyQuery)
  else
    let m : Int :=
      match max_results with
      | none => clientDefault
      | some k => if k = 0 then clientDefault else k
    match parse_search_results page result_type with
    | .ok results => ([.fetch], .ok (pySliceTo m results))
    | .error e => ([.fetch], .error (.searchFailed e))

/-- The names registered in `get_formatter`'s dictionary
(formatters.py:274-282). -/
def formatter_names : List String :=
  ["table", "json", "csv", "simple", "ytdlp", "ytdlpa", "ytdlpv"]

/-- The unknown-format rejection of formatters.py:285. -/
inductive FmtErr where
  | unknownFormat (name : String)
deriving DecidableEq, Repr

/-- `get_formatter` (formatters.py:272-290), modelled up to the identity of
the returned formatter object (its behaviour is not claim-relevant). -/
def get_formatter (format_name : String) : Except FmtErr String :=
  if format_name ∈ formatter_names then .ok format_name
  else .error (.unknownFormat format_name)

/-- The `--format` choices that argparse accepts for the `search` command
(cli.py:41); any other `--format` value is rejected at argument-parsing
time, before a client even exists. -/
def searchFormatChoices : List String := ["table", "json", "csv", "simple"]

/-- Observable steps of `handle_search`. -/
inductive CliEvent where
  | fetchPage
  | unknownFormatError (name : String)
  | wroteOutput
deriving DecidableEq, Repr

/-- The event trace of `handle_search` (cli.py:81-126) when the search
itself succeeds: `client.search` — the page fetch — runs at cli.py:91,
before the formatter name is resolved (cli.py:104-108) and looked up
(cli.py:110), where an unregistered name raises. -/
def handle_search_trace (format_arg : String) (ytdlpa ytdlpv : Bool) : List CliEvent :=
  let format_name := if ytdlpa then "ytdlpa" else if ytdlpv then "ytdlpv" else format_arg
  match get_formatter format_name with
  | .error (.unknownFormat n) => [CliEvent.fetchPage, CliEvent.unknownFormatError n]
  | .ok _ => [CliEvent.fetchPage, CliEvent.wroteOutput]

/-! ### Concrete fixtures used by the theorems -/

/-- The end-to-end scenario item of spec §8: a `videoRenderer` with id
`abc123`, title `Intro`, view text `2.5M views`, length `10:30`. -/
def exItem : JValue :=
  .obj [("videoRenderer", .obj [
    ("videoId", .str "abc123"),
    ("title", .obj [("simpleText", .str "Intro")]),
    ("viewCountText", .obj [("simpleText", .str "2.5M views")]),
    ("lengthText", .obj [("simpleText", .str "10:30")])
  ])]

/-- The end-to-end scenario document of spec §8, carrying `exItem`. -/
def exDoc : JValue :=
  .obj [("contents", .obj [("twoColumnSearchResultsRenderer", .obj [("primaryContents",
    .obj [("sectionListRenderer", .obj [("contents", .arr [
      .obj [("itemSectionRenderer", .obj [("contents", .arr [exItem])])]
    ])])]
  )])])]

/-- The record that `exDoc` extracts to. -/
def exRec : VideoResult := {
  title := .str "Intro"
  url := "https://www.youtube.com/watch?v=abc123"
  channel_title := .str ""
  duration := .str "10:30"
  duration_seconds := some 630
  view_count := some 2500000
  thumbnail_url := .null
}

/-- An HTML video container carrying a data id, a titled link and a
duration. -/
def exContainer : HNode :=
  .elem "div" [("data-context-item-id", "vid1")] [
    .elem "h3" [] [.elem "a" [("title", "My Video")] [.text "My Video"]],
    .elem "span" [("class", "duration")] [.text " 10:30 "]]

/-- The record that `exContainer` parses to in the fallback path. -/
def exHtmlRec : VideoResult := {
  title := .str "My Video"
  url := "https://www.youtube.com/watch?v=vid1"
  channel_title := .str ""
  duration := .str "10:30"
  duration_seconds := some 630
  thumbnail_url := .null
}

/-- A parsed `ytInitialData` whose `contents` node is a string where the
code expects a mapping. -/
def badTypeDoc : JValue := .obj [("contents", .str "x")]

/-- A document whose single video item has no title field at all. -/
def noTitleDoc : JValue :=
  .obj [("contents", .obj [("twoColumnSearchResultsRenderer", .obj [("primaryContents",
    .obj [("sectionListRenderer", .obj [("contents", .arr [
      .obj [("itemSectionRenderer", .obj [("contents", .arr [
        .obj [("videoRenderer", .obj [("videoId", .str "abc")])]
      ])])]
    ])])]
  )])])]

/-- The empty-titled record that `noTitleDoc` extracts to. -/
def noTitleRec : VideoResult := {
  title := .str ""
  url := "https://www.youtube.com/watch?v=abc"
  channel_title := .str ""
  duration := .str ""
}

/-- A document whose single video item carries the view-count text `-5`. -/
def negDoc : JValue :=
  .obj [("contents", .obj [("twoColumnSearchResultsRenderer", .obj [("primaryContents",
    .obj [("sectionListRenderer", .obj [("contents", .arr [
      .obj [("itemSectionRenderer", .obj [("contents", .arr [
        .obj [("videoRenderer", .obj [
          ("videoId", .str "x"),
          ("viewCountText", .obj [("simpleText", .str "-5")])
        ])]
      ])])]
    ])])]
  )])])]

/-- The record with a negative view count that `negDoc` extracts to. -/
def negRec : VideoResult := {
  title := .str ""
  url := "https://www.youtube.com/watch?v=x"
  channel_title := .str ""
  duration := .str ""
  view_count := some (-5)
}

/-! ### Claim C2 -/

/-- C2 (code bug): the structured extractor is specified to absorb every
parse or navigation failure, but the `try` of `_extract_json_results`
catches only `json.JSONDecodeError` and `KeyError` (client.py:243).  With
`ytInitialData = {"contents": "x"}` the navigation calls `.get` on a
string, and the resulting `AttributeError` escapes the extractor and the
coordinator, so the fallback path is never attempted.  A missing blob and a
malformed blob are absorbed, as specified. -/
theorem structured_failure_escapes :
    extract_json_results ⟨some (.parsed badTypeDoc), []⟩ "video" = .error .attrError ∧
    parse_search_results ⟨some (.parsed badTypeDoc), []⟩ "video" = .error .attrError ∧
    extract_json_results ⟨some .malformed, []⟩ "video" = .ok [] ∧
    extract_json_results ⟨none, []⟩ "video" = .ok [] :=
  ⟨rfl, rfl, rfl, rfl⟩

/-! ### Claim C4 -/

/-- C4: the coordinator returns exactly the structured extractor's output
whenever that output is non-empty — the fallback containers are ignored —
and exactly the fallback tag extractor's output whenever the structured
output is empty; an empty final list is a legitimate outcome. -/
theorem coordinator_strategy (page : Page) (rt : String) :
    (∀ l, extract_json_results page rt = .ok l → l ≠ [] →
      parse_search_results page rt = .ok l) ∧
    (extract_json_results page rt = .ok [] →
      parse_search_results page rt = .ok (parse_html_results page.soup rt)) := by
  constructor
  · intro l h hne
    simp only [parse_search_results, h]
    simp [List.isEmpty_iff, hne]
  · intro h
    simp [parse_search_results, h]

/-- Instantiation of `coordinator_strategy`: a page whose embedded JSON
yields one video and whose HTML contains a different matching container
returns the structured result; with the JSON blob absent, the same HTML
yields the fallback result. -/
theorem coordinator_strategy_witness :
    parse_search_results ⟨some (.parsed exDoc), [exContainer]⟩ "video" = .ok [.video exRec] ∧
    parse_search_results ⟨none, [exContainer]⟩ "video" =
      .ok (parse_html_results [exContainer] "video") :=
  ⟨(coordinator_strategy ⟨some (.parsed exDoc), [exContainer]⟩ "video").1
      [.video exRec] rfl (by simp),
   (coordinator_strategy ⟨none, [exContainer]⟩ "video").2 rfl⟩

/-! ### Claim C6 -/

/-- C6: `_parse_duration_to_seconds` maps a 2-part split to
`minutes*60 + seconds` and a 3-part split to `hours*3600 + minutes*60 +
seconds` (yielding nothing when a part is not numeric), and yields nothing
on the empty string or any other part count — never an error.  The spec's
examples hold. -/
theorem duration_seconds_spec (s : String) (a b c : List Char) :
    (parse_duration_to_seconds "10:30" = some 630 ∧
     parse_duration_to_seconds "1:02:03" = some 3723 ∧
     parse_duration_to_seconds "" = none ∧
     parse_duration_to_seconds "abc" = none ∧
     parse_duration_to_seconds "1:2:3:4" = none) ∧
    (s ≠ "" → pySplitChar ':' s.data = [a, b] →
      parse_duration_to_seconds s =
        match pyIntParseL a, pyIntParseL b with
        | some m, some sec => some (m * 60 + sec)
        | _, _ => none) ∧
    (s ≠ "" → pySplitChar ':' s.data = [a, b, c] →
      parse_duration_to_seconds s =
        match pyIntParseL a, pyIntParseL b, pyIntParseL c with
        | some h, some m, some sec => some (h * 3600 + m * 60 + sec)
        | _, _, _ => none) ∧
    (s ≠ "" → (pySplitChar ':' s.data).length ≠ 2 →
      (pySplitChar ':' s.data).length ≠ 3 →
      parse_duration_to_seconds s = none) := by
  refine ⟨⟨by decide, by decide, by decide, by decide, by decide⟩, ?_, ?_, ?_⟩
  · intro hs hsplit
    simp only [parse_duration_to_seconds, if_neg hs, hsplit]
  · intro hs hsplit
    simp only [parse_duration_to_seconds, if_neg hs, hsplit]
  · intro hs h2 h3
    simp only [parse_duration_to_seconds, if_neg hs]
    rcases hsp : pySplitChar ':' s.data with _ | ⟨x, _ | ⟨y, _ | ⟨z, _ | _⟩⟩⟩ <;>
      simp_all [hsp]

/-- Instantiation of `duration_seconds_spec` at `7:05`. -/
theorem duration_seconds_spec_witness :
    parse_duration_to_seconds "7:05" = some 425 :=
  ((duration_seconds_spec "7:05" "7".data "05".data []).2.1 (by decide) (by decide)).trans
    (by decide)

/-! ### Claim C8 -/

/-- C8: a query that strips to the empty string is rejected with the
empty-query error before anything else happens: the event trace is empty —
in particular no page fetch occurs. -/
theorem empty_query_rejected (query : String) (mr : Option Int) (d : Int)
    (page : Page) (rt : String) (h : pyStrip query = "") :
    async_search query mr d page rt = ([], .error .emptyQuery) := by
  simp [async_search, h]

/-- Instantiation of `empty_query_rejected` at a whitespace-only query. -/
theorem empty_query_rejected_witness :
    pyStrip " \t " = "" ∧
    async_search " \t " none 20 ⟨none, []⟩ "video" = ([], .error .emptyQuery) :=
  ⟨by decide, empty_query_rejected " \t " none 20 ⟨none, []⟩ "video" (by decide)⟩

/-! ### Claim C9 -/

/-- C9 counterexample: for the unregistered format name `xml`,
`handle_search`'s trace begins with the page fetch and only then raises the
unknown-format error — the rejection is not before network work, contrary
to the claim. -/
theorem unknown_format_after_fetch_cex :
    handle_search_trace "xml" false false =
      [CliEvent.fetchPage, CliEvent.unknownFormatError "xml"] ∧
    (handle_search_trace "xml" false false).head? = some CliEvent.fetchPage :=
  ⟨rfl, rfl⟩

/-- C9 amended: `get_formatter` rejects exactly the names outside its
registry, but in `handle_search` that lookup runs only after the search
(the page fetch); independently, every `--format` value that argparse
admits for the `search` command is registered, so a CLI-supplied format
never reaches the late rejection. -/
theorem unknown_format_rejection (name : String) :
    (name ∉ formatter_names →
      get_formatter name = .error (.unknownFormat name) ∧
      handle_search_trace name false false =
        [CliEvent.fetchPage, CliEvent.unknownFormatError name]) ∧
    (name ∈ formatter_names → get_formatter name = .ok name) ∧
    (name ∈ searchFormatChoices → name ∈ formatter_names) := by
  refine ⟨?_, ?_, ?_⟩
  · intro h
    constructor
    · simp [get_formatter, h]
    · simp [handle_search_trace, get_formatter, h]
  · intro h
    simp [get_formatter, h]
  · intro h
    simp only [searchFormatChoices, List.mem_cons, List.mem_singleton] at h
    rcases h with rfl | rfl | rfl | rfl | h
    · simp [formatter_names]
    · simp [formatter_names]
    · simp [formatter_names]
    · simp [formatter_names]
    · simp at h

/-- Instantiation of `unknown_format_rejection` at `xml` (unregistered) and
`table` (argparse-admitted). -/
theorem unknown_format_rejection_witness :
    get_formatter "xml" = .error (.unknownFormat "xml") ∧
    get_formatter "table" = .ok "table" :=
  ⟨((unknown_format_rejection "xml").1 (by decide)).1,
   (unknown_format_rejection "table").2.1 (by decide)⟩

/-! ### Sign-tracking lemmas for the numeric normalizers -/

/-- Membership through `dropWhile`. -/
theorem mem_of_mem_dropWhile {α : Type} {p : α → Bool} :
    ∀ {cs : List α} {x : α}, x ∈ cs.dropWhile p → x ∈ cs := by
  intro cs
  induction cs with
  | nil => intro x h; simp at h
  | cons c rest ih =>
    intro x h
    rw [List.dropWhile_cons] at h
    by_cases hc : p c
    · simp only [hc, if_true] at h
      exact List.mem_cons_of_mem _ (ih h)
    · simp only [hc] at h
      simpa using h

/-- Membership through `str.strip()`. -/
theorem mem_of_mem_stripWS {cs : List Char} {x : Char} (h : x ∈ stripWSList cs) :
    x ∈ cs := by
  unfold stripWSList at h
  rw [List.mem_reverse] at h
  have h2 := mem_of_mem_dropWhile h
  rw [List.mem_reverse] at h2
  exact mem_of_mem_dropWhile h2

/-- Membership through the `replace`-deletion worker. -/
theorem mem_of_mem_pyReplaceDelAux (o : Char) (os : List Char) :
    ∀ (n : Nat) (cs : List Char) (x : Char), x ∈ pyReplaceDelAux o os n cs → x ∈ cs := by
  intro n
  induction n with
  | zero => intro cs x h; simp [pyReplaceDelAux] at h
  | succ n ih =>
    intro cs x h
    cases cs with
    | nil => simp [pyReplaceDelAux] at h
    | cons c rest =>
      rw [pyReplaceDelAux] at h
      split at h
      · exact List.mem_cons_of_mem c (List.drop_subset _ _ (ih _ _ h))
      · rcases List.mem_cons.mp h with rfl | h2
        · exact List.mem_cons_self _ _
        · exact List.mem_cons_of_mem _ (ih _ _ h2)

/-- Membership through `replace`-deletion. -/
theorem mem_of_mem_pyDelete (pat : String) {cs : List Char} {x : Char}
    (h : x ∈ pyDelete pat cs) : x ∈ cs := by
  unfold pyDelete at h
  rcases hp : pat.data with _ | ⟨p, ps⟩ <;> rw [hp] at h
  · exact h
  · exact mem_of_mem_pyReplaceDelAux p ps _ _ _ h

/-- Membership through the unit-stripping chain. -/
theorem mem_of_mem_stripUnits {cs : List Char} {x : Char} (h : x ∈ stripUnits cs) :
    x ∈ cs :=
  mem_of_mem_pyDelete _ (mem_of_mem_pyDelete _ (mem_of_mem_pyDelete _ h))

/-- Mapping a natural through the integer cast never yields a negative. -/
theorem natCastMap_nonneg {o : Option Nat} {z : Int}
    (h : o.map (fun n => (n : Int)) = some z) : 0 ≤ z := by
  cases o with
  | none => simp at h
  | some n =>
    simp at h
    omega

/-- Without a minus sign in the input, `int()` cannot return a negative. -/
theorem pyIntParseL_nonneg {cs : List Char} (hm : '-' ∉ cs) {z : Int}
    (h : pyIntParseL cs = some z) : 0 ≤ z := by
  unfold pyIntParseL at h
  split at h
  · simp at h
  · rename_i c rest hst
    split at h
    · rename_i hc
      have hmem : '-' ∈ stripWSList cs := by
        rw [hst, hc]
        exact List.mem_cons_self _ _
      exact absurd (mem_of_mem_stripWS hmem) hm
    · split at h
      · exact natCastMap_nonneg h
      · exact natCastMap_nonneg h

/-- The unsigned float fragment has a non-negative mantissa. -/
theorem pyFloatCore_nonneg {cs : List Char} {p : DecNum}
    (h : pyFloatCore cs = some p) : 0 ≤ p.1 := by
  unfold pyFloatCore at h
  dsimp only at h
  split at h
  · split at h
    · simp only [Option.some.injEq] at h
      subst h
      dsimp only
      positivity
    · simp at h
  · split at h
    · simp only [Option.some.injEq] at h
      subst h
      dsimp only
      positivity
    · simp at h
  · simp at h

/-- Without a minus sign in the input, `float()` cannot return a negative. -/
theorem pyFloatParse_nonneg {cs : List Char} (hm : '-' ∉ cs) {p : DecNum}
    (h : pyFloatParse cs = some p) : 0 ≤ p.1 := by
  unfold pyFloatParse at h
  split at h
  · simp at h
  · rename_i c rest hst
    split at h
    · rename_i hc
      have hmem : '-' ∈ stripWSList cs := by
        rw [hst, hc]
        exact List.mem_cons_self _ _
      exact absurd (mem_of_mem_stripWS hmem) hm
    · split at h
      · exact pyFloatCore_nonneg h
      · exact pyFloatCore_nonneg h

/-- Truncation of a product of non-negatives is non-negative. -/
theorem truncScaled_nonneg {p : DecNum} {mult : Int} (hp : 0 ≤ p.1) (hmu : 0 ≤ mult) :
    0 ≤ truncScaled p mult := by
  unfold truncScaled
  exact Int.tdiv_nonneg (mul_nonneg hp hmu) (by positivity)

/-- Without a minus sign, one suffix iteration cannot return a negative. -/
theorem viewSuffix_nonneg {t : List Char} {mult : Int} (hm : '-' ∉ t) (hmu : 0 ≤ mult)
    {z : Int} (h : viewSuffix t mult = some z) : 0 ≤ z := by
  unfold viewSuffix at h
  split at h
  · rename_i p hp
    simp only [Option.some.injEq] at h
    subst h
    exact truncScaled_nonneg
      (pyFloatParse_nonneg (fun hx => hm (List.dropLast_subset _ hx)) hp) hmu
  · exact pyIntParseL_nonneg hm h

/-! ### Claim C5 -/

/-- C5 counterexample: the claim says the output equals
`round(number * multiplier)`, but `int()` truncates toward zero: on
`1.0006K` the code yields `1000` while rounding `1.0006 * 1000 = 1000.6`
yields `1001`.  (Binary64 evaluation agrees: the float product lies strictly
between `1000` and `1001`.) -/
theorem compact_count_round_cex :
    parse_view_count "1.0006K" = some 1000 ∧
    round ((10006 : Rat) / 10) = 1001 ∧ (1000 : Int) ≠ 1001 := by
  refine ⟨by decide, ?_, by decide⟩
  rw [round_eq]
  norm_num

/-- C5 amended: for an input whose stripped text ends in `K`/`M`/`B` (any
case) with a parsing float mantissa, the output is
`int(number * multiplier)` — truncation toward zero, not rounding — with
multiplier 1000 / 1000000 / 1000000000; with no suffix the stripped text is
parsed as a plain integer (so non-numeric text yields nothing); the
concrete examples hold. -/
theorem compact_count_amended (text : String) (p : DecNum) :
    (parse_view_count "1,234,567" = some 1234567 ∧
     parse_view_count "2.5M" = some 2500000 ∧
     parse_view_count "" = none ∧
     parse_view_count "abc" = none ∧
     parse_view_count "12 views" = some 12) ∧
    (text ≠ "" →
      (((stripUnits text.data).map Char.toUpper).getLast? = some 'K' →
        pyFloatParse (stripUnits text.data).dropLast = some p →
        parse_view_count text = some (truncScaled p 1000)) ∧
      (((stripUnits text.data).map Char.toUpper).getLast? = some 'M' →
        pyFloatParse (stripUnits text.data).dropLast = some p →
        parse_view_count text = some (truncScaled p 1000000)) ∧
      (((stripUnits text.data).map Char.toUpper).getLast? = some 'B' →
        pyFloatParse (stripUnits text.data).dropLast = some p →
        parse_view_count text = some (truncScaled p 1000000000)) ∧
      (((stripUnits text.data).map Char.toUpper).getLast? ≠ some 'K' →
       ((stripUnits text.data).map Char.toUpper).getLast? ≠ some 'M' →
       ((stripUnits text.data).map Char.toUpper).getLast? ≠ some 'B' →
        parse_view_count text = pyIntParseL (stripUnits text.data))) := by
  refine ⟨⟨by decide, by decide, by decide, by decide, by decide⟩, ?_⟩
  intro ht
  refine ⟨?_, ?_, ?_, ?_⟩
  · intro h1 h2
    unfold parse_view_count
    rw [if_neg ht]
    dsimp only
    rw [if_pos h1]
    unfold viewSuffix
    rw [h2]
  · intro h1 h2
    unfold parse_view_count
    rw [if_neg ht]
    dsimp only
    rw [if_neg (by rw [h1]; decide), if_pos h1]
    unfold viewSuffix
    rw [h2]
  · intro h1 h2
    unfold parse_view_count
    rw [if_neg ht]
    dsimp only
    rw [if_neg (by rw [h1]; decide), if_neg (by rw [h1]; decide), if_pos h1]
    unfold viewSuffix
    rw [h2]
  · intro h1 h2 h3
    unfold parse_view_count
    rw [if_neg ht]
    dsimp only
    rw [if_neg h1, if_neg h2, if_neg h3]

/-- Instantiation of `compact_count_amended` at `2k` (lower-case suffix). -/
theorem compact_count_amended_witness :
    parse_view_count "2k" = some 2000 :=
  ((((compact_count_amended "2k" ((2 : Int), 0)).2 (by decide)).1 (by decide)
    (by decide)).trans (by decide))

/-! ### Claim C7 -/

/-- C7 counterexample: the extractors do not enforce non-negativity — a
page whose view-count text is `-5` produces a record with
`view_count = -5`. -/
theorem count_fields_negative_cex :
    extract_json_results ⟨some (.parsed negDoc), []⟩ "video" = .ok [.video negRec] ∧
    negRec.view_count = some (-5) ∧ (-5 : Int) < 0 :=
  ⟨rfl, rfl, by decide⟩

/-- C7 amended: the numeric normalizers pass the sign of the source text
through; whenever the source text carries no minus sign — the case for real
display strings — the parsed `viewCount`/`subscriberCount`/
`durationSeconds` values are non-negative, and `videoCount` (a bare digit
run) is always non-negative. -/
theorem count_fields_nonneg (s : String) :
    (('-' ∉ s.data) → ∀ n, parse_view_count s = some n → 0 ≤ n) ∧
    (∀ n, parse_video_count s = some n → 0 ≤ n) ∧
    ((∀ part ∈ pySplitChar ':' s.data, '-' ∉ part) →
      ∀ n, parse_duration_to_seconds s = some n → 0 ≤ n) := by
  refine ⟨?_, ?_, ?_⟩
  · intro hm n h
    unfold parse_view_count at h
    split at h
    · simp at h
    · dsimp only at h
      have hmt : '-' ∉ stripUnits s.data := fun hx => hm (mem_of_mem_stripUnits hx)
      split at h
      · exact viewSuffix_nonneg hmt (by norm_num) h
      · split at h
        · exact viewSuffix_nonneg hmt (by norm_num) h
        · split at h
          · exact viewSuffix_nonneg hmt (by norm_num) h
          · exact pyIntParseL_nonneg hmt h
  · intro n h
    unfold parse_video_count at h
    split at h
    · simp at h
    · dsimp only at h
      split at h
      · simp at h
      · simp only [Option.some.injEq] at h
        subst h
        positivity
  · intro hp n h
    unfold parse_duration_to_seconds at h
    split at h
    · simp at h
    · split at h
      · rename_i m sec hsp
        split at h
        · rename_i a b ha hb
          simp only [Option.some.injEq] at h
          subst h
          have h1 := pyIntParseL_nonneg (hp m (by rw [hsp]; simp)) ha
          have h2 := pyIntParseL_nonneg (hp sec (by rw [hsp]; simp)) hb
          omega
        · simp at h
      · rename_i hh m sec hsp
        split at h
        · rename_i a b c ha hb hc
          simp only [Option.some.injEq] at h
          subst h
          have h1 := pyIntParseL_nonneg (hp hh (by rw [hsp]; simp)) ha
          have h2 := pyIntParseL_nonneg (hp m (by rw [hsp]; simp)) hb
          have h3 := pyIntParseL_nonneg (hp sec (by rw [hsp]; simp)) hc
          omega
        · simp at h
      · simp at h

/-- Instantiation of `count_fields_nonneg` at `1.2M` and `10:30`. -/
theorem count_fields_nonneg_witness :
    parse_view_count "1.2M" = some 1200000 ∧ (0 : Int) ≤ 1200000 ∧
    parse_duration_to_seconds "10:30" = some 630 ∧ (0 : Int) ≤ 630 :=
  ⟨by decide, (count_fields_nonneg "1.2M").1 (by decide) 1200000 (by decide),
   by decide, (count_fields_nonneg "10:30").2.2 (by decide) 630 (by decide)⟩

/-! ### Claim C1 -/

/-- C1 counterexample: `max_results or self.max_results` (client.py:114)
treats `0` as falsy, so requesting `maxResults = 0` substitutes the client
default (here 20) and a page yielding one record returns one record —
not `min(0, 1) = 0` as the claim requires. -/
theorem truncation_zero_cex :
    (async_search "q" (some 0) 20 ⟨some (.parsed exDoc), []⟩ "video").2 =
      .ok [.video exRec] ∧
    ¬ ([SearchItem.video exRec].length ≤ 0) :=
  ⟨rfl, by decide⟩

/-- C1 amended: for positive `maxResults = k` the search returns the first
`min(k, n)` of the `n` parsed records — a prefix of the parsed list, so
the surviving records keep their relative order; `maxResults = 0` behaves
like `None` and is replaced by the client default before slicing. -/
theorem truncation_amended (query : String) (page : Page) (rt : String)
    (k d : Int) (l : List SearchItem)
    (hq : pyStrip query ≠ "") (hp : parse_search_results page rt = .ok l) :
    (0 < k →
      (async_search query (some k) d page rt).2 = .ok (l.take k.toNat) ∧
      (l.take k.toNat).length = min k.toNat l.length ∧
      l.take k.toNat <+: l) ∧
    (async_search query (some 0) d page rt).2 = .ok (pySliceTo d l) ∧
    (async_search query none d page rt).2 = .ok (pySliceTo d l) := by
  refine ⟨?_, ?_, ?_⟩
  · intro hk
    refine ⟨?_, List.length_take _ _, ⟨l.drop k.toNat, List.take_append_drop _ _⟩⟩
    simp only [async_search, if_neg hq, hp]
    rw [if_neg (by omega : ¬ k = 0)]
    simp only [pySliceTo, if_pos (le_of_lt hk)]
  · simp only [async_search, if_neg hq, hp]
    simp
  · simp only [async_search, if_neg hq, hp]

/-- Instantiation of `truncation_amended` at `k = 1` on a page yielding one
record. -/
theorem truncation_amended_witness :
    pyStrip "q" ≠ "" ∧
    (async_search "q" (some 1) 20 ⟨some (.parsed exDoc), []⟩ "video").2 =
      .ok ([SearchItem.video exRec].take (1 : Int).toNat) :=
  ⟨by decide,
   ((truncation_amended "q" ⟨some (.parsed exDoc), []⟩ "video" 1 20 [.video exRec]
      (by decide) rfl).1 (by decide)).1⟩

/-! ### URL-shape machinery for the structured path -/

/-- The URL-shape invariant of the structured path: every record URL
extends the constant site head of its kind. -/
def urlShape : SearchItem → Prop
  | .video v => ∃ sid, v.url = watchUrlBase ++ sid
  | .channel c => ∃ sid, c.url = channelUrlBase ++ sid
  | .playlist p => ∃ sid, p.url = playlistUrlBase ++ sid

/-- Concatenation of character data under string append. -/
theorem strData_append (a b : String) : (a ++ b).data = a.data ++ b.data := by
  cases a
  cases b
  rfl

/-- A string extending non-empty head text is non-empty. -/
theorem strHead_append_ne_empty {a : String} (b : String) (ha : a.data ≠ []) :
    a ++ b ≠ "" := by
  intro hc
  apply ha
  have h2 := congrArg String.data hc
  rw [strData_append] at h2
  exact (List.append_eq_nil.mp h2).1

/-- Inversion of a successful `Except` bind. -/
theorem bind_eq_ok {α β : Type} {x : Except PyErr α} {f : α → Except PyErr β} {b : β} :
    (x >>= f) = .ok b ↔ ∃ a, x = .ok a ∧ f a = .ok b := by
  cases x <;> simp [Bind.bind, Except.bind]

/-- A `pure` in `Except` is `ok`. -/
theorem pure_eq_ok {α : Type} {a b : α} :
    (pure a : Except PyErr α) = .ok b ↔ a = b := by
  simp [pure, Except.pure]

/-- The video branch builds its URL from the constant watch head. -/
theorem parse_video_item_url {v : JValue} {r : VideoResult}
    (h : parse_video_item v = .ok r) : ∃ sid, r.url = watchUrlBase ++ sid := by
  unfold parse_video_item at h
  simp only [bind_eq_ok, pure_eq_ok] at h
  rcases h with ⟨a1, -, a2, -, a3, -, a4, -, a5, -, a6, -, a7, -, a8, -, a9, -,
    a10, -, a11, -, a12, -, rfl⟩
  exact ⟨_, rfl⟩

/-- The channel branch builds its URL from the constant channel head. -/
theorem parse_channel_item_url {v : JValue} {r : ChannelResult}
    (h : parse_channel_item v = .ok r) : ∃ sid, r.url = channelUrlBase ++ sid := by
  unfold parse_channel_item at h
  simp only [bind_eq_ok, pure_eq_ok] at h
  rcases h with ⟨a1, -, a2, -, a3, -, a4, -, a5, -, a6, -, a7, -, a8, -, a9, -, rfl⟩
  exact ⟨_, rfl⟩

/-- The playlist branch builds its URL from the constant playlist head. -/
theorem parse_playlist_item_url {v : JValue} {r : PlaylistResult}
    (h : parse_playlist_item v = .ok r) : ∃ sid, r.url = playlistUrlBase ++ sid := by
  unfold parse_playlist_item at h
  simp only [bind_eq_ok, pure_eq_ok] at h
  rcases h with ⟨a1, -, a2, -, a3, -, a4, -, a5, -, a6, -, a7, -, a8, -, a9, -, rfl⟩
  exact ⟨_, rfl⟩

/-- Every record `_parse_json_item` emits satisfies the URL-shape
invariant. -/
theorem parse_json_item_urlShape {item : JValue} {rt : String} {r : SearchItem}
    (h : parse_json_item item rt = .ok (some r)) : urlShape r := by
  unfold parse_json_item at h
  simp only [bind_eq_ok] at h
  obtain ⟨hasVideo, -, h⟩ := h
  split at h
  · simp only [bind_eq_ok, pure_eq_ok, Option.some.injEq] at h
    obtain ⟨video, -, rv, hrv, h⟩ := h
    subst h
    exact parse_video_item_url hrv
  · simp only [bind_eq_ok] at h
    obtain ⟨hasChannel, -, h⟩ := h
    split at h
    · simp only [bind_eq_ok, pure_eq_ok, Option.some.injEq] at h
      obtain ⟨channel, -, rc, hrc, h⟩ := h
      subst h
      exact parse_channel_item_url hrc
    · simp only [bind_eq_ok] at h
      obtain ⟨hasPlaylist, -, h⟩ := h
      split at h
      · simp only [bind_eq_ok, pure_eq_ok, Option.some.injEq] at h
        obtain ⟨playlist, -, rp, hrp, h⟩ := h
        subst h
        exact parse_playlist_item_url hrp
      · simp only [pure_eq_ok] at h
        exact Option.noConfusion h

/-- A record satisfying the URL-shape invariant has a non-empty URL. -/
theorem urlShape_ne_empty {r : SearchItem} (h : urlShape r) : itemUrl r ≠ "" := by
  cases r with
  | video v =>
    rcases h with ⟨sid, hu⟩
    show v.url ≠ ""
    rw [hu]
    exact strHead_append_ne_empty _ (by decide)
  | channel c =>
    rcases h with ⟨sid, hu⟩
    show c.url ≠ ""
    rw [hu]
    exact strHead_append_ne_empty _ (by decide)
  | playlist p =>
    rcases h with ⟨sid, hu⟩
    show p.url ≠ ""
    rw [hu]
    exact strHead_append_ne_empty _ (by decide)

/-- The record list carried by a navigation outcome (the `try` of
`_extract_json_results` returns the accumulated records both on success and
when it catches an exception). -/
def exList : Except (PyErr × List SearchItem) (List SearchItem) → List SearchItem
  | .ok out => out
  | .error (_, out) => out

/-- Properties established item-wise are preserved by the item loop, on
both the success and the exception-carrying outcome. -/
theorem navItems_preserves (rt : String) (P : SearchItem → Prop)
    (hnew : ∀ item r, parse_json_item item rt = .ok (some r) → P r) :
    ∀ (items : List JValue) (acc : List SearchItem), (∀ r ∈ acc, P r) →
      ∀ r ∈ exList (navItems rt acc items), P r := by
  intro items
  induction items with
  | nil =>
    intro acc hacc r hr
    rw [navItems] at hr
    exact hacc r hr
  | cons item rest ih =>
    intro acc hacc r hr
    rw [navItems] at hr
    rcases hpi : parse_json_item item rt with e | o
    · rw [hpi] at hr
      exact hacc r hr
    · rcases o with _ | rnew
      · rw [hpi] at hr
        exact ih acc hacc r hr
      · rw [hpi] at hr
        refine ih (acc ++ [rnew]) ?_ r hr
        intro x hx
        rcases List.mem_append.mp hx with hx | hx
        · exact hacc x hx
        · rw [List.mem_singleton.mp hx]
          exact hnew item rnew hpi

/-- Property preservation through the section loop. -/
theorem navSections_preserves (rt : String) (P : SearchItem → Prop)
    (hnew : ∀ item r, parse_json_item item rt = .ok (some r) → P r) :
    ∀ (sections : List JValue) (acc : List SearchItem), (∀ r ∈ acc, P r) →
      ∀ r ∈ exList (navSections rt acc sections), P r := by
  intro sections
  induction sections with
  | nil =>
    intro acc hacc r hr
    rw [navSections] at hr
    exact hacc r hr
  | cons s rest ih =>
    intro acc hacc r hr
    rw [navSections] at hr
    split at hr
    · exact hacc r hr
    · exact ih acc hacc r hr
    · split at hr
      · exact hacc r hr
      · rename_i items hdo
        split at hr
        · rename_i p hni
          obtain ⟨e, out⟩ := p
          have h2 := navItems_preserves rt P hnew items acc hacc
          rw [hni] at h2
          exact h2 r hr
        · rename_i acc2 hni
          refine ih acc2 ?_ r hr
          have h2 := navItems_preserves rt P hnew items acc hacc
          rw [hni] at h2
          exact h2

/-- Property preservation through the whole navigation. -/
theorem navigate_preserves (rt : String) (P : SearchItem → Prop)
    (hnew : ∀ item r, parse_json_item item rt = .ok (some r) → P r)
    (data : JValue) : ∀ r ∈ exList (navigate data rt), P r := by
  intro r hr
  rw [navigate] at hr
  split at hr
  · simp [exList] at hr
  · rename_i sections hdo
    exact navSections_preserves rt P hnew sections [] (by simp) r hr

/-- Every record the structured extractor returns satisfies a property
established item-wise — also on the partial list returned when the `try`
catches a `KeyError`. -/
theorem extract_json_results_data_preserves (jd : Option JsonParse) (rt : String)
    (P : SearchItem → Prop)
    (hnew : ∀ item r, parse_json_item item rt = .ok (some r) → P r)
    (l : List SearchItem) (h : extract_json_results_data jd rt = .ok l) :
    ∀ r ∈ l, P r := by
  intro r hr
  unfold extract_json_results_data at h
  split at h
  · simp only [Except.ok.injEq] at h
    subst h
    simp at hr
  · simp only [Except.ok.injEq] at h
    subst h
    simp at hr
  · rename_i data
    split at h
    · rename_i results hnav
      simp only [Except.ok.injEq] at h
      subst h
      have h2 := navigate_preserves rt P hnew data
      rw [hnav] at h2
      exact h2 r hr
    · rename_i results hnav
      simp only [Except.ok.injEq] at h
      subst h
      have h2 := navigate_preserves rt P hnew data
      rw [hnav] at h2
      exact h2 r hr
    · exact Except.noConfusion h

/-! ### Claim C10 -/

/-- C10: every record the structured extractor returns has a URL formed by
appending the item's id to the constant site head of its kind — so the URL
is never empty — and an item with no id at all yields exactly the bare
head (the id defaults to the empty string). -/
theorem structured_url_heads (page : Page) (rt : String) (l : List SearchItem)
    (r : SearchItem) (h : extract_json_results page rt = .ok l) (hr : r ∈ l) :
    (urlShape r ∧ itemUrl r ≠ "") ∧
    parse_json_item (.obj [("videoRenderer", .obj [])]) "video" =
      .ok (some (.video { title := .str "", url := watchUrlBase,
                          channel_title := .str "", duration := .str "" })) := by
  refine ⟨⟨?_, ?_⟩, rfl⟩
  · exact extract_json_results_data_preserves page.ytInitialData rt urlShape
      (fun item r2 h2 => parse_json_item_urlShape h2) l h r hr
  · exact urlShape_ne_empty (extract_json_results_data_preserves page.ytInitialData rt
      urlShape (fun item r2 h2 => parse_json_item_urlShape h2) l h r hr)

/-- Instantiation of `structured_url_heads` on the spec §8 page. -/
theorem structured_url_heads_witness :
    (urlShape (.video exRec) ∧ itemUrl (.video exRec) ≠ "") ∧
    parse_json_item (.obj [("videoRenderer", .obj [])]) "video" =
      .ok (some (.video { title := .str "", url := watchUrlBase,
                          channel_title := .str "", duration := .str "" })) :=
  structured_url_heads ⟨some (.parsed exDoc), []⟩ "video" [.video exRec]
    (.video exRec) rfl (List.Mem.head _)

/-! ### Claim C3 -/

/-- C3 counterexample: the structured path does not filter on the identity
fields — an item whose title is absent is emitted with an empty title,
contrary to the claim that such candidates are excluded in both paths. -/
theorem empty_title_emitted_cex :
    extract_json_results ⟨some (.parsed noTitleDoc), []⟩ "video" =
      .ok [.video noTitleRec] ∧
    noTitleRec.title = .str "" :=
  ⟨rfl, rfl⟩

/-- `urljoin` against the fixed base never yields an empty URL. -/
theorem pyUrljoin_ne_empty (href : String) :
    pyUrljoin "https://www.youtube.com" href ≠ "" := by
  unfold pyUrljoin
  split
  · rename_i hstart
    intro hc
    rcases hstart with h1 | h1 <;> rw [hc] at h1 <;> exact absurd h1 (by decide)
  · split
    · exact strHead_append_ne_empty _ (by decide)
    · split
      · exact strHead_append_ne_empty _ (by decide)
      · split
        · decide
        · exact strHead_append_ne_empty _ (by decide)

/-- C3 amended: the fallback (HTML) extractors enforce the identity
invariant — every emitted record carries a non-empty title (or name) and a
non-empty URL, and failing candidates yield `None` rather than an error;
the structured path guarantees only the non-empty URL (its records may
carry an empty title, as the counterexample shows). -/
theorem identity_filter_amended (c : HNode) (item : JValue) (rt : String) :
    (∀ r, parse_video_container c = some r →
      (∃ t, r.title = .str t ∧ t ≠ "") ∧ r.url ≠ "") ∧
    (∀ r, parse_channel_container c = some r →
      (∃ t, r.name = .str t ∧ t ≠ "") ∧ r.url ≠ "") ∧
    (∀ r, parse_playlist_container c = some r →
      (∃ t, r.title = .str t ∧ t ≠ "") ∧ r.url ≠ "") ∧
    (∀ r, parse_json_item item rt = .ok (some r) → itemUrl r ≠ "") := by
  refine ⟨?_, ?_, ?_, ?_⟩
  · intro r h
    unfold parse_video_container at h
    split at h
    · try dsimp only at h
      split at h
      · rename_i htitle
        simp only [Option.some.injEq] at h
        subst h
        exact ⟨⟨_, rfl, htitle⟩, strHead_append_ne_empty _ (by decide)⟩
      · exact Option.noConfusion h
    · exact Option.noConfusion h
  · intro r h
    unfold parse_channel_container at h
    split at h
    · exact Option.noConfusion h
    · try dsimp only at h
      split at h
      · rename_i hname
        simp only [Option.some.injEq] at h
        subst h
        exact ⟨⟨_, rfl, hname⟩, pyUrljoin_ne_empty _⟩
      · exact Option.noConfusion h
  · intro r h
    unfold parse_playlist_container at h
    split at h
    · exact Option.noConfusion h
    · try dsimp only at h
      split at h
      · exact Option.noConfusion h
      · try dsimp only at h
        split at h
        · rename_i htitle
          simp only [Option.some.injEq] at h
          subst h
          exact ⟨⟨_, rfl, htitle⟩, strHead_append_ne_empty _ (by decide)⟩
        · exact Option.noConfusion h
  · intro r h
    exact urlShape_ne_empty (parse_json_item_urlShape h)

/-- Instantiation of `identity_filter_amended` on the concrete container
and item fixtures. -/
theorem identity_filter_amended_witness :
    ((∃ t, exHtmlRec.title = .str t ∧ t ≠ "") ∧ exHtmlRec.url ≠ "") ∧
    itemUrl (.video exRec) ≠ "" :=
  ⟨(identity_filter_amended exContainer exItem "video").1 exHtmlRec rfl,
   (identity_filter_amended exContainer exItem "video").2.2.2 (.video exRec) rfl⟩

end Yts
